import Mathlib

/-!
# Q35 machine bring-up (`hw/pc_q35.c`)

A shallow embedding of `pc_cmos_set_s3_resume` and `pc_q35_init`.

* Scalars of type `ram_addr_t` are natural numbers reduced modulo `2 ^ w`,
  where `w` is the width of `ram_addr_t` on the host.
* The calls `pc_q35_init` makes into the rest of the emulator, and its stores
  into objects owned by the rest of the emulator, are recorded in program
  order as a list of `Step`s.  The value of every local variable is a `Val`;
  a local that has not been assigned holds `Val.uninit`.
-/

set_option linter.unusedVariables false

namespace Q35

/-! ## Memory split (`pc_q35_init`, lines 90-96) -/

/-- Subtraction of two `ram_addr_t` values, `w` bits wide. -/
def ram_addr_sub (w a b : Nat) : Nat :=
  (a % 2 ^ w + 2 ^ w - b % 2 ^ w) % 2 ^ w

/-- The two locals `below_4g_mem_size` and `above_4g_mem_size`. -/
structure MemSplit where
  below_4g_mem_size : Nat
  above_4g_mem_size : Nat
deriving DecidableEq, Repr

/-- Lines 90-96 of `pc_q35_init`: the split of `ram_size` around `0xb0000000`.
The comparison is exact; the two assignments store into `ram_addr_t`. -/
def pc_q35_init_mem_split (w ram_size : Nat) : MemSplit :=
  if ram_size >= 0xb0000000 then
    { above_4g_mem_size := ram_addr_sub w ram_size 0xb0000000
      below_4g_mem_size := 0xb0000000 % 2 ^ w }
  else
    { above_4g_mem_size := 0
      below_4g_mem_size := ram_size % 2 ^ w }

/-- The split policy as the specification words it: at or above the boundary
the low region receives exactly the boundary and the high region the rest;
otherwise all RAM is low and the high region is zero. -/
def split_policy (boundary size : Nat) : Nat × Nat :=
  if size >= boundary then (boundary, size - boundary) else (size, 0)

/-! ## The S3-resume line (`pc_cmos_set_s3_resume`, lines 47-56) -/

/-- The non-volatile memory of the RTC: a byte for every offset. -/
abbrev RTCMemory := Nat → Nat

/-- Modelled from the spec: `rtc_set_memory` belongs to the RTC device model,
which is not part of this file.  It writes a byte into an offset of the RTC's
non-volatile memory and leaves every other offset alone. -/
def rtc_set_memory (s : RTCMemory) (addr val : Nat) : RTCMemory :=
  fun a => if a = addr then val % 256 else s a

/-- The handler of the power-management line.  Its first argument is the RTC
(the handler's user pointer); `irq` is not looked at. -/
def pc_cmos_set_s3_resume (s : RTCMemory) (irq level : Int) : RTCMemory :=
  if level ≠ 0 then rtc_set_memory s 0xF 0xFE else s

/-! ## Values, steps and the environment of `pc_q35_init` -/

/-- The objects that the steps of `pc_q35_init` bring into existence.  A handle
is named after the local variable (or accessor) through which the function
first sees it. -/
inductive Handle
  | system_memory   -- result of get_system_memory()
  | system_io       -- result of get_system_io()
  | pci_memory      -- g_new(MemoryRegion, 1)
  | ram_memory      -- stored through the last argument of pc_memory_init
  | gsi_state       -- g_malloc0(sizeof(*gsi_state))
  | gsi             -- qemu_allocate_irqs(..., gsi_state, GSI_NUM_PINS)
  | q35_host        -- qdev_create(NULL, TYPE_Q35_HOST_DEVICE)
  | host_bus        -- q35_host->host.pci.bus
  | lpc             -- the LPC bridge function
  | isa_bus         -- ich9_lpc->isa_bus
  | kvm_i8259       -- kvm_i8259_init(isa_bus)
  | xen_i8259       -- xen_interrupt_controller_init()
  | cpu_irq         -- pc_allocate_cpu_irq()
  | sw_i8259        -- i8259_init(isa_bus, cpu_irq[0])
  | rtc_state       -- stored by pc_basic_device_init
  | floppy          -- stored by pc_basic_device_init
  | cmos_s3         -- qemu_allocate_irqs(pc_cmos_set_s3_resume, rtc_state, 1)
  | ahci            -- the storage controller function
  | ide0            -- qdev_get_child_bus(&ahci->qdev, "ide.0")
  | ide1            -- qdev_get_child_bus(&ahci->qdev, "ide.1")
  | smbus           -- ich9_smb_init(...)
deriving DecidableEq, Repr

/-- Functions of the emulator that `pc_q35_init` passes by address. -/
inductive Callback
  | kvm_pc_gsi_handler
  | gsi_handler
  | ich9_lpc_set_irq
  | ich9_lpc_map_irq
  | pc_cmos_set_s3_resume
deriving DecidableEq, Repr

/-- Members whose address `pc_q35_init` takes. -/
inductive Member
  | ioapic_irq   -- gsi_state->ioapic_irq
  | qdev         -- &ahci->qdev
deriving DecidableEq, Repr

/-- What a local variable or an argument can hold. -/
inductive Val
  | uninit                           -- a local that was never assigned
  | null                             -- NULL
  | obj (h : Handle)                 -- pointer to an object
  | elem (h : Handle) (i : Nat)      -- h[i] for an array of qemu_irq
  | member (h : Handle) (m : Member) -- address of a member of an object
  | num (n : Int)                    -- an integer or boolean argument
  | str (s : String)                 -- a string
  | fn (f : Callback)                -- a function pointer
deriving DecidableEq, Repr

/-- The C expression `p[i]` (also `*p` for `i = 0`). -/
def Val.index : Val → Nat → Val
  | .obj h, i => .elem h i
  | _, _ => .uninit

/-- The C expression `p->m` for an array member, or `&p->m`. -/
def Val.addr_of : Val → Member → Val
  | .obj h, m => .member h m
  | _, _ => .uninit

/-- A `const char *` of the machine arguments: NULL or a string. -/
def Val.cstr : Option String → Val
  | none => .null
  | some s => .str s

/-- The handles a value refers to. -/
def Val.handles : Val → List Handle
  | .obj h => [h]
  | .elem h _ => [h]
  | .member h _ => [h]
  | _ => []

/-- The operations `pc_q35_init` performs on the rest of the emulator:
its calls, and its loads from and stores into objects it does not own. -/
inductive Op
  | pc_cpus_init
  | g_new_MemoryRegion
  | memory_region_init
  | get_system_memory
  | get_system_io
  | pc_memory_init
  | g_malloc0_gsi_state
  | kvm_pc_setup_irq_routing
  | qemu_allocate_irqs
  | qdev_create
  | store_mch_ram_memory          -- q35_host->mch.ram_memory = ...
  | store_mch_pci_address_space   -- q35_host->mch.pci_address_space = ...
  | store_mch_system_memory       -- q35_host->mch.system_memory = ...
  | store_mch_address_space_io    -- q35_host->mch.address_space_io = ...
  | store_mch_below_4g_mem_size   -- q35_host->mch.below_4g_mem_size = ...
  | store_mch_above_4g_mem_size   -- q35_host->mch.above_4g_mem_size = ...
  | qdev_init_nofail
  | load_host_pci_bus             -- host_bus = q35_host->host.pci.bus
  | pci_create_simple_multifunction
  | store_lpc_pic                 -- ich9_lpc->pic = ...
  | store_lpc_ioapic              -- ich9_lpc->ioapic = ...
  | pci_bus_irqs
  | load_lpc_isa_bus              -- isa_bus = ich9_lpc->isa_bus
  | isa_bus_irqs
  | kvm_i8259_init
  | xen_interrupt_controller_init
  | pc_allocate_cpu_irq
  | i8259_init
  | store_i8259_irq               -- gsi_state->i8259_irq[i] = ...
  | ioapic_init_gsi
  | pc_register_ferr_irq
  | pc_basic_device_init
  | ich9_lpc_pm_init
  | qdev_get_child_bus
  | ehci_create_ich9_with_companions
  | ich9_smb_init
  | smbus_eeprom_init
  | pc_cmos_init
  | pc_vga_init
  | audio_init
  | pc_nic_init
  | pc_pci_device_init
deriving DecidableEq, Repr

/-- One executed operation: the source line, the operation, the values it is
given (for a store: the object, then the value stored) and the handles it
brings into existence (its result and what it stores through out-pointers). -/
structure Step where
  line : Nat
  op : Op
  args : List Val
  out : List Handle
deriving DecidableEq, Repr

/-- The fields of `QEMUMachineInitArgs` that `pc_q35_init` reads. -/
structure QEMUMachineInitArgs where
  ram_size : Nat
  cpu_model : Option String
  kernel_filename : Option String
  kernel_cmdline : Option String
  initrd_filename : Option String
  boot_device : Option String
deriving DecidableEq, Repr

/-- The capability queries of `pc_q35_init`.  Each one reads a setting that is
fixed before the machine is built, so a query returns the same answer every
time it is made. -/
structure Env where
  kvm_irqchip_in_kernel : Bool
  xen_enabled : Bool
  usb_enabled : Bool
deriving DecidableEq, Repr

/-- Constants that `pc_q35_init` takes from headers outside this file. -/
structure Headers where
  ram_addr_bits : Nat            -- width of ram_addr_t
  GSI_NUM_PINS : Nat
  ISA_NUM_IRQS : Nat
  ICH9_LPC_NB_PIRQS : Nat
  ICH9_LPC_DEV : Nat
  ICH9_LPC_FUNC : Nat
  ICH9_SATA1_DEV : Nat
  ICH9_SATA1_FUNC : Nat
  ICH9_SMB_DEV : Nat
  ICH9_SMB_FUNC : Nat
  PCI_DEVFN : Nat → Nat → Nat
  TYPE_Q35_HOST_DEVICE : String
  TYPE_ICH9_LPC_DEVICE : String

/-- The constant of `stdint.h`. -/
def INT64_MAX : Int := 2 ^ 63 - 1

/-- ICH9 AHCI has 6 ports. -/
def MAX_SATA_PORTS : Nat := 6

/-- A sample choice of the header constants (those of the Q35/ICH9 chipset on
a 64-bit host), used where a concrete machine is evaluated.  The theorems
hold for every choice. -/
def q35_headers : Headers where
  ram_addr_bits := 64
  GSI_NUM_PINS := 24
  ISA_NUM_IRQS := 16
  ICH9_LPC_NB_PIRQS := 8
  ICH9_LPC_DEV := 31
  ICH9_LPC_FUNC := 0
  ICH9_SATA1_DEV := 31
  ICH9_SATA1_FUNC := 2
  ICH9_SMB_DEV := 31
  ICH9_SMB_FUNC := 3
  PCI_DEVFN := fun slot func => ((slot % 32) * 8) + (func % 8)
  TYPE_Q35_HOST_DEVICE := "q35-pcihost"
  TYPE_ICH9_LPC_DEVICE := "ICH9 LPC"

/-- The state of an execution of `pc_q35_init`: its local variables and the
steps performed so far.  `idebus0` and `idebus1` are the first two of the
`MAX_SATA_PORTS` elements of `idebus`, the only ones the function touches. -/
structure Machine where
  below_4g_mem_size : Val
  above_4g_mem_size : Val
  q35_host : Val
  host_bus : Val
  lpc : Val
  idebus0 : Val
  idebus1 : Val
  rtc_state : Val
  floppy : Val
  pci_memory : Val
  rom_memory : Val
  ram_memory : Val
  gsi_state : Val
  isa_bus : Val
  cpu_irq : Val
  gsi : Val
  i8259 : Val
  ich9_lpc : Val
  ahci : Val
  cmos_s3 : Val
  trace : List Step
deriving DecidableEq, Repr

/-- On entry no local declared without an initialiser has a value. -/
def Machine.entry : Machine where
  below_4g_mem_size := .uninit
  above_4g_mem_size := .uninit
  q35_host := .uninit
  host_bus := .uninit
  lpc := .uninit
  idebus0 := .uninit
  idebus1 := .uninit
  rtc_state := .uninit
  floppy := .uninit
  pci_memory := .uninit
  rom_memory := .uninit
  ram_memory := .uninit
  gsi_state := .uninit
  isa_bus := .uninit
  cpu_irq := .uninit
  gsi := .uninit
  i8259 := .uninit
  ich9_lpc := .uninit
  ahci := .uninit
  cmos_s3 := .uninit
  trace := []

/-- Record a step. -/
def Machine.emit (m : Machine) (line : Nat) (op : Op) (args : List Val)
    (out : List Handle) : Machine :=
  { m with trace := m.trace ++ [{ line := line, op := op, args := args, out := out }] }

/-! ## `pc_q35_init` (lines 58-205)

The body is cut at the comments of the source into consecutive parts; each
part maps the machine state before it to the machine state after it.  The
capability queries (`xen_enabled()`, `kvm_irqchip_in_kernel()`,
`usb_enabled(false)`) only read the environment and are not recorded as
steps.  The casts `Q35_HOST_DEVICE`, `DEVICE` and `ICH9_LPC_DEVICE` do not
change the pointer they are applied to. -/

/-- Lines 88-113: CPUs, the memory split, the PCI address space, RAM and ROM. -/
def q35_memory (H : Headers) (env : Env) (pci_enabled : Int)
    (args : QEMUMachineInitArgs) (m : Machine) : Machine :=
  -- 88: pc_cpus_init(cpu_model)
  let m := m.emit 88 .pc_cpus_init [Val.cstr args.cpu_model] []
  -- 90-96
  let split := pc_q35_init_mem_split H.ram_addr_bits args.ram_size
  let m := { m with above_4g_mem_size := .num split.above_4g_mem_size
                    below_4g_mem_size := .num split.below_4g_mem_size }
  -- 99-106
  let m :=
    if pci_enabled ≠ 0 then
      let m := { m.emit 100 .g_new_MemoryRegion [.num 1] [.pci_memory] with
                 pci_memory := .obj .pci_memory }
      let m := m.emit 101 .memory_region_init [m.pci_memory, .str "pci", .num INT64_MAX] []
      { m with rom_memory := m.pci_memory }
    else
      let m := { m with pci_memory := .null }
      { m.emit 105 .get_system_memory [] [.system_memory] with
        rom_memory := .obj .system_memory }
  -- 109-113
  if !env.xen_enabled then
    let m := m.emit 110 .get_system_memory [] [.system_memory]
    { m.emit 110 .pc_memory_init
        [.obj .system_memory, Val.cstr args.kernel_filename,
         Val.cstr args.kernel_cmdline, Val.cstr args.initrd_filename,
         m.below_4g_mem_size, m.above_4g_mem_size, m.rom_memory]
        [.ram_memory] with
      ram_memory := .obj .ram_memory }
  else
    m

/-- Lines 115-123: the GSI state and the GSI lines. -/
def q35_irq_lines (H : Headers) (env : Env) (pci_enabled : Int) (m : Machine) : Machine :=
  -- 116
  let m := { m.emit 116 .g_malloc0_gsi_state [] [.gsi_state] with gsi_state := .obj .gsi_state }
  -- 117-123
  if env.kvm_irqchip_in_kernel then
    let m := m.emit 118 .kvm_pc_setup_irq_routing [.num pci_enabled] []
    { m.emit 119 .qemu_allocate_irqs
        [.fn .kvm_pc_gsi_handler, m.gsi_state, .num H.GSI_NUM_PINS] [.gsi] with
      gsi := .obj .gsi }
  else
    { m.emit 122 .qemu_allocate_irqs
        [.fn .gsi_handler, m.gsi_state, .num H.GSI_NUM_PINS] [.gsi] with
      gsi := .obj .gsi }

/-- Lines 125-136: the PCI host bridge. -/
def q35_host_bridge (H : Headers) (m : Machine) : Machine :=
  -- 126
  let m := { m.emit 126 .qdev_create [.null, .str H.TYPE_Q35_HOST_DEVICE] [.q35_host] with
             q35_host := .obj .q35_host }
  -- 128-133
  let m := m.emit 128 .store_mch_ram_memory [m.q35_host, m.ram_memory] []
  let m := m.emit 129 .store_mch_pci_address_space [m.q35_host, m.pci_memory] []
  let m := m.emit 130 .get_system_memory [] [.system_memory]
  let m := m.emit 130 .store_mch_system_memory [m.q35_host, .obj .system_memory] []
  let m := m.emit 131 .get_system_io [] [.system_io]
  let m := m.emit 131 .store_mch_address_space_io [m.q35_host, .obj .system_io] []
  let m := m.emit 132 .store_mch_below_4g_mem_size [m.q35_host, m.below_4g_mem_size] []
  let m := m.emit 133 .store_mch_above_4g_mem_size [m.q35_host, m.above_4g_mem_size] []
  -- 135-136
  let m := m.emit 135 .qdev_init_nofail [m.q35_host] []
  { m.emit 136 .load_host_pci_bus [m.q35_host] [.host_bus] with host_bus := .obj .host_bus }

/-- Lines 137-149: the LPC bridge, the PCI interrupt routing, the ISA bus. -/
def q35_lpc (H : Headers) (m : Machine) : Machine :=
  -- 138-140
  let m := { m.emit 138 .pci_create_simple_multifunction
               [m.host_bus, .num (H.PCI_DEVFN H.ICH9_LPC_DEV H.ICH9_LPC_FUNC), .num 1,
                .str H.TYPE_ICH9_LPC_DEVICE] [.lpc] with
             lpc := .obj .lpc }
  -- 141-143
  let m := { m with ich9_lpc := m.lpc }
  let m := m.emit 142 .store_lpc_pic [m.ich9_lpc, m.gsi] []
  let m := m.emit 143 .store_lpc_ioapic [m.ich9_lpc, m.gsi_state.addr_of .ioapic_irq] []
  -- 144-146
  let m := m.emit 144 .pci_bus_irqs
             [m.host_bus, .fn .ich9_lpc_set_irq, .fn .ich9_lpc_map_irq, m.ich9_lpc,
              .num H.ICH9_LPC_NB_PIRQS] []
  let m := { m.emit 146 .load_lpc_isa_bus [m.ich9_lpc] [.isa_bus] with isa_bus := .obj .isa_bus }
  -- 149
  m.emit 149 .isa_bus_irqs [m.isa_bus, m.gsi] []

/-- Lines 160-162: `for (i = 0; i < ISA_NUM_IRQS; i++)`. -/
def q35_i8259_irq_loop (H : Headers) (m : Machine) : Machine :=
  (List.range H.ISA_NUM_IRQS).foldl
    (fun m (i : Nat) => m.emit 161 .store_i8259_irq [m.gsi_state, .num (i : Int), m.i8259.index i] []) m

/-- Lines 151-167: the interrupt controller behind the GSI lines. -/
def q35_interrupt_controller (H : Headers) (env : Env) (pci_enabled : Int)
    (m : Machine) : Machine :=
  -- 151-158
  let m :=
    if env.kvm_irqchip_in_kernel then
      { m.emit 152 .kvm_i8259_init [m.isa_bus] [.kvm_i8259] with i8259 := .obj .kvm_i8259 }
    else if env.xen_enabled then
      { m.emit 154 .xen_interrupt_controller_init [] [.xen_i8259] with
        i8259 := .obj .xen_i8259 }
    else
      let m := { m.emit 156 .pc_allocate_cpu_irq [] [.cpu_irq] with cpu_irq := .obj .cpu_irq }
      { m.emit 157 .i8259_init [m.isa_bus, m.cpu_irq.index 0] [.sw_i8259] with
        i8259 := .obj .sw_i8259 }
  -- 160-162
  let m := q35_i8259_irq_loop H m
  -- 163-165
  let m := if pci_enabled ≠ 0 then m.emit 164 .ioapic_init_gsi [m.gsi_state, .null] [] else m
  -- 167
  m.emit 167 .pc_register_ferr_irq [m.gsi.index 13] []

/-- Lines 169-204: the devices behind the bridges. -/
def q35_peripherals (H : Headers) (env : Env) (pci_enabled : Int)
    (args : QEMUMachineInitArgs) (m : Machine) : Machine :=
  -- 170
  let m := { m.emit 170 .pc_basic_device_init [m.isa_bus, m.gsi, .num 0]
               [.rtc_state, .floppy] with
             rtc_state := .obj .rtc_state
             floppy := .obj .floppy }
  -- 173-174
  let m := { m.emit 173 .qemu_allocate_irqs [.fn .pc_cmos_set_s3_resume, m.rtc_state, .num 1]
               [.cmos_s3] with
             cmos_s3 := .obj .cmos_s3 }
  let m := m.emit 174 .ich9_lpc_pm_init [m.lpc, m.cmos_s3.index 0] []
  -- 177-182
  let m := { m.emit 177 .pci_create_simple_multifunction
               [m.host_bus, .num (H.PCI_DEVFN H.ICH9_SATA1_DEV H.ICH9_SATA1_FUNC), .num 1,
                .str "ich9-ahci"] [.ahci] with
             ahci := .obj .ahci }
  let m := { m.emit 181 .qdev_get_child_bus [m.ahci.addr_of .qdev, .str "ide.0"] [.ide0] with
             idebus0 := .obj .ide0 }
  let m := { m.emit 182 .qdev_get_child_bus [m.ahci.addr_of .qdev, .str "ide.1"] [.ide1] with
             idebus1 := .obj .ide1 }
  -- 184-187
  let m :=
    if env.usb_enabled then
      m.emit 186 .ehci_create_ich9_with_companions [m.host_bus, .num 0x1d] []
    else m
  -- 190-193
  let m := m.emit 190 .ich9_smb_init
             [m.host_bus, .num (H.PCI_DEVFN H.ICH9_SMB_DEV H.ICH9_SMB_FUNC), .num 0xb100]
             [.smbus]
  let m := m.emit 190 .smbus_eeprom_init [.obj .smbus, .num 8, .null, .num 0] []
  -- 195-196
  let m := m.emit 195 .pc_cmos_init
             [m.below_4g_mem_size, m.above_4g_mem_size, Val.cstr args.boot_device,
              m.floppy, m.idebus0, m.idebus1, m.rtc_state] []
  -- 199-204
  let m := m.emit 199 .pc_vga_init [m.isa_bus, m.host_bus] []
  let m := m.emit 200 .audio_init [m.isa_bus, m.host_bus] []
  let m := m.emit 201 .pc_nic_init [m.isa_bus, m.host_bus] []
  if pci_enabled ≠ 0 then m.emit 203 .pc_pci_device_init [m.host_bus] [] else m

/-- The body of `pc_q35_init` for a given value of its local `pci_enabled`. -/
def pc_q35_init_body (H : Headers) (env : Env) (pci_enabled : Int)
    (args : QEMUMachineInitArgs) : Machine :=
  Machine.entry
    |> q35_memory H env pci_enabled args
    |> q35_irq_lines H env pci_enabled
    |> q35_host_bridge H
    |> q35_lpc H
    |> q35_interrupt_controller H env pci_enabled
    |> q35_peripherals H env pci_enabled args

/-- Line 79 of `pc_q35_init` is `int pci_enabled = 1;`. -/
def pc_q35_init (H : Headers) (env : Env) (args : QEMUMachineInitArgs) : Machine :=
  pc_q35_init_body H env 1 args

/-! ## Observations on a trace -/

/-- The operations that construct an interrupt backend object. -/
def Op.is_backend_init : Op → Bool
  | .kvm_i8259_init => true
  | .xen_interrupt_controller_init => true
  | .i8259_init => true
  | _ => false

/-- The steps of a trace that perform the given operation. -/
def steps_of (op : Op) (t : List Step) : List Step :=
  t.filter (fun s => s.op = op)

/-- A value can be consumed once it has been assigned and every handle it
refers to has been produced. -/
def Val.available (produced : List Handle) (v : Val) : Bool :=
  v != .uninit && v.handles.all (fun h => produced.contains h)

/-- Every step of the trace consumes only values available from the steps
strictly before it, `produced` being what exists before the first step. -/
def def_before_use : List Handle → List Step → Bool
  | _, [] => true
  | produced, s :: t =>
    s.args.all (Val.available produced) && def_before_use (s.out ++ produced) t

/-- The content of `gsi_state->i8259_irq[i]` after the steps of `t`: the value
of the last store into that element, and NULL (from `g_malloc0`) if there is
none. -/
def i8259_irq_after (t : List Step) (i : Nat) : Val :=
  match (t.filter (fun s => s.op = .store_i8259_irq ∧ s.args.get? 1 = some (.num i))).getLast? with
  | some s => (s.args.get? 2).getD .uninit
  | none => .null

/-- The steps listed by the peripheral attachment order, with the arguments
`pc_q35_init` is to give them. -/
def attachment_order (H : Headers) (usb pci : Bool) (args : QEMUMachineInitArgs) : List Step :=
  let split := pc_q35_init_mem_split H.ram_addr_bits args.ram_size
  [ { line := 170, op := .pc_basic_device_init,
      args := [.obj .isa_bus, .obj .gsi, .num 0], out := [.rtc_state, .floppy] },
    { line := 173, op := .qemu_allocate_irqs,
      args := [.fn .pc_cmos_set_s3_resume, .obj .rtc_state, .num 1], out := [.cmos_s3] },
    { line := 174, op := .ich9_lpc_pm_init,
      args := [.obj .lpc, .elem .cmos_s3 0], out := [] },
    { line := 177, op := .pci_create_simple_multifunction,
      args := [.obj .host_bus, .num (H.PCI_DEVFN H.ICH9_SATA1_DEV H.ICH9_SATA1_FUNC), .num 1,
               .str "ich9-ahci"], out := [.ahci] },
    { line := 181, op := .qdev_get_child_bus,
      args := [.member .ahci .qdev, .str "ide.0"], out := [.ide0] },
    { line := 182, op := .qdev_get_child_bus,
      args := [.member .ahci .qdev, .str "ide.1"], out := [.ide1] } ]
  ++ (if usb then
        [ { line := 186, op := .ehci_create_ich9_with_companions,
            args := [.obj .host_bus, .num 0x1d], out := [] } ]
      else [])
  ++ [ { line := 190, op := .ich9_smb_init,
         args := [.obj .host_bus, .num (H.PCI_DEVFN H.ICH9_SMB_DEV H.ICH9_SMB_FUNC),
                  .num 0xb100], out := [.smbus] },
       { line := 190, op := .smbus_eeprom_init,
         args := [.obj .smbus, .num 8, .null, .num 0], out := [] },
       { line := 195, op := .pc_cmos_init,
         args := [.num split.below_4g_mem_size, .num split.above_4g_mem_size,
                  Val.cstr args.boot_device, .obj .floppy, .obj .ide0, .obj .ide1,
                  .obj .rtc_state], out := [] },
       { line := 199, op := .pc_vga_init, args := [.obj .isa_bus, .obj .host_bus], out := [] },
       { line := 200, op := .audio_init, args := [.obj .isa_bus, .obj .host_bus], out := [] },
       { line := 201, op := .pc_nic_init, args := [.obj .isa_bus, .obj .host_bus], out := [] } ]
  ++ (if pci then
        [ { line := 203, op := .pc_pci_device_init, args := [.obj .host_bus], out := [] } ]
      else [])

/-- A machine description used where a concrete machine is evaluated:
4 GiB of RAM, default CPU, no kernel, boot order "c". -/
def sample_args : QEMUMachineInitArgs where
  ram_size := 0x100000000
  cpu_model := none
  kernel_filename := none
  kernel_cmdline := none
  initrd_filename := none
  boot_device := some "c"

/-- The stores of the loop of lines 160-162 when it is entered with the locals
of `m` and runs over the indices `l`. -/
def loop_steps (m : Machine) (l : List Nat) : List Step :=
  l.map (fun (i : Nat) =>
    Step.mk 161 .store_i8259_irq [m.gsi_state, .num (i : Int), m.i8259.index i] [])

/-! ## Theorems -/

theorem mem_split_exact (w s : Nat) (hs : s < 2 ^ w) :
    pc_q35_init_mem_split w s =
      if s >= 0xb0000000 then
        { below_4g_mem_size := 0xb0000000, above_4g_mem_size := s - 0xb0000000 }
      else { below_4g_mem_size := s, above_4g_mem_size := 0 } := by
  unfold pc_q35_init_mem_split ram_addr_sub
  by_cases h : s >= 0xb0000000
  · have hb : 0xb0000000 < 2 ^ w := lt_of_le_of_lt h hs
    have e1 : 0xb0000000 % 2 ^ w = 0xb0000000 := Nat.mod_eq_of_lt hb
    have e2 : s % 2 ^ w = s := Nat.mod_eq_of_lt hs
    have e3 : (s + 2 ^ w - 0xb0000000) % 2 ^ w = s - 0xb0000000 := by
      have : s + 2 ^ w - 0xb0000000 = (s - 0xb0000000) + 2 ^ w := by omega
      rw [this, Nat.add_mod_right]
      exact Nat.mod_eq_of_lt (by omega)
    simp only [h, if_true, e1, e2, e3]
  · have e2 : s % 2 ^ w = s := Nat.mod_eq_of_lt hs
    simp only [h, if_false, e2]

theorem loop_fold (l : List Nat) (m : Machine) :
    l.foldl (fun m (i : Nat) =>
        m.emit 161 .store_i8259_irq [m.gsi_state, .num (i : Int), m.i8259.index i] []) m
      = { m with trace := m.trace ++ loop_steps m l } := by
  induction l generalizing m with
  | nil => simp [loop_steps]
  | cons i l ih =>
    rw [List.foldl_cons, ih]
    simp [loop_steps, Machine.emit]

theorem i8259_irq_loop_eq (H : Headers) (m : Machine) :
    q35_i8259_irq_loop H m
      = { m with trace := m.trace ++ loop_steps m (List.range H.ISA_NUM_IRQS) } :=
  loop_fold _ m

/-- The locals `below_4g_mem_size` and `above_4g_mem_size` hold the split of
lines 90-96 when `pc_q35_init` is done. -/
theorem body_split_locals (H : Headers) (env : Env) (pci_enabled : Int)
    (args : QEMUMachineInitArgs) :
    (pc_q35_init_body H env pci_enabled args).below_4g_mem_size
        = .num (pc_q35_init_mem_split H.ram_addr_bits args.ram_size).below_4g_mem_size
    ∧ (pc_q35_init_body H env pci_enabled args).above_4g_mem_size
        = .num (pc_q35_init_mem_split H.ram_addr_bits args.ram_size).above_4g_mem_size := by
  rcases env with ⟨k, x, u⟩
  by_cases hp : pci_enabled = 0 <;> cases k <;> cases x <;> cases u <;>
    simp [pc_q35_init_body, q35_memory, q35_irq_lines, q35_host_bridge, q35_lpc,
      q35_interrupt_controller, q35_peripherals, i8259_irq_loop_eq, Machine.emit,
      Machine.entry, hp]

/-- C1: for every RAM size representable in `ram_addr_t`, when `pc_q35_init`
is done its locals hold a split with `below + above = ram_size`,
`below ≤ 0xb0000000`, and `above > 0` exactly when `ram_size > 0xb0000000`. -/
theorem mem_split_invariant (H : Headers) (env : Env) (args : QEMUMachineInitArgs)
    (hs : args.ram_size < 2 ^ H.ram_addr_bits) :
    ∃ below above : Nat,
      (pc_q35_init H env args).below_4g_mem_size = .num below
      ∧ (pc_q35_init H env args).above_4g_mem_size = .num above
      ∧ below + above = args.ram_size
      ∧ below ≤ 0xb0000000
      ∧ (0 < above ↔ 0xb0000000 < args.ram_size) := by
  refine ⟨(pc_q35_init_mem_split H.ram_addr_bits args.ram_size).below_4g_mem_size,
    (pc_q35_init_mem_split H.ram_addr_bits args.ram_size).above_4g_mem_size,
    (body_split_locals H env 1 args).1, (body_split_locals H env 1 args).2, ?_⟩
  rw [mem_split_exact _ _ hs]
  by_cases h : args.ram_size >= 0xb0000000
  · simp only [h, if_true]; omega
  · simp only [h, if_false]; omega

theorem mem_split_invariant_witness :
    ∃ below above : Nat,
      (pc_q35_init q35_headers ⟨true, false, true⟩ sample_args).below_4g_mem_size = .num below
      ∧ (pc_q35_init q35_headers ⟨true, false, true⟩ sample_args).above_4g_mem_size
          = .num above
      ∧ below + above = sample_args.ram_size
      ∧ below ≤ 0xb0000000
      ∧ (0 < above ↔ 0xb0000000 < sample_args.ram_size) :=
  mem_split_invariant q35_headers ⟨true, false, true⟩ sample_args (by decide)

/-- C2: for every representable RAM size the split held by the locals of
`pc_q35_init` is the split of the stated policy with boundary `0xb0000000`;
`0x80000000` gives `(0x80000000, 0)`, `0x100000000` gives
`(0xb0000000, 0x50000000)` and `0` gives `(0, 0)`. -/
theorem mem_split_refines_policy (H : Headers) (env : Env) (args : QEMUMachineInitArgs)
    (hs : args.ram_size < 2 ^ H.ram_addr_bits) :
    ((pc_q35_init H env args).below_4g_mem_size
        = .num (split_policy 0xb0000000 args.ram_size).1
      ∧ (pc_q35_init H env args).above_4g_mem_size
        = .num (split_policy 0xb0000000 args.ram_size).2)
    ∧ pc_q35_init_mem_split 64 0x80000000
        = { below_4g_mem_size := 0x80000000, above_4g_mem_size := 0 }
    ∧ pc_q35_init_mem_split 64 0x100000000
        = { below_4g_mem_size := 0xb0000000, above_4g_mem_size := 0x50000000 }
    ∧ pc_q35_init_mem_split 64 0
        = { below_4g_mem_size := 0, above_4g_mem_size := 0 } := by
  refine ⟨?_, ?_, ?_, ?_⟩
  · have hb := body_split_locals H env 1 args
    rw [mem_split_exact _ _ hs] at hb
    unfold split_policy
    by_cases h : args.ram_size >= 0xb0000000
    · simp only [h, if_true] at hb ⊢
      exact hb
    · simp only [h, if_false] at hb ⊢
      exact hb
  · rw [mem_split_exact 64 _ (by norm_num)]; rfl
  · rw [mem_split_exact 64 _ (by norm_num)]; rfl
  · rw [mem_split_exact 64 _ (by norm_num)]; rfl

theorem mem_split_refines_policy_witness :
    (pc_q35_init q35_headers ⟨false, false, false⟩ sample_args).below_4g_mem_size
        = .num 0xb0000000
    ∧ (pc_q35_init q35_headers ⟨false, false, false⟩ sample_args).above_4g_mem_size
        = .num 0x50000000 :=
  (mem_split_refines_policy q35_headers ⟨false, false, false⟩ sample_args (by decide)).1

/-- C3: whatever the capability flags, exactly one step of `pc_q35_init`
constructs an interrupt backend, and it is the first match of: in-kernel
irqchip (`kvm_i8259_init`), Xen (`xen_interrupt_controller_init`), software
(`i8259_init`). -/
theorem one_interrupt_backend (H : Headers) (env : Env) (pci_enabled : Int)
    (args : QEMUMachineInitArgs) :
    (pc_q35_init_body H env pci_enabled args).trace.filter (fun s => s.op.is_backend_init)
      = [if env.kvm_irqchip_in_kernel then
           Step.mk 152 .kvm_i8259_init [.obj .isa_bus] [.kvm_i8259]
         else if env.xen_enabled then
           Step.mk 154 .xen_interrupt_controller_init [] [.xen_i8259]
         else
           Step.mk 157 .i8259_init [.obj .isa_bus, .elem .cpu_irq 0] [.sw_i8259]] := by
  rcases env with ⟨k, x, u⟩
  by_cases hp : pci_enabled = 0 <;> cases k <;> cases x <;> cases u <;>
    simp [pc_q35_init_body, q35_memory, q35_irq_lines, q35_host_bridge, q35_lpc,
      q35_interrupt_controller, q35_peripherals, i8259_irq_loop_eq, Machine.emit,
      Machine.entry, hp, Op.is_backend_init, loop_steps, List.filter_map, Val.index,
      Val.addr_of]

/-- C4: raising the line (any `irq`, `level ≠ 0`) stores `0xFE` at offset `0xF`
of the RTC memory and changes no other offset; raising it again leaves the
memory as it was after the first raise; with `level = 0` the memory is
unchanged. -/
theorem s3_resume_sentinel (s : RTCMemory) (irq irq2 level level2 : Int) :
    (level ≠ 0 →
        pc_cmos_set_s3_resume s irq level 0xF = 0xFE
      ∧ (∀ a, a ≠ 0xF → pc_cmos_set_s3_resume s irq level a = s a)
      ∧ (level2 ≠ 0 →
          pc_cmos_set_s3_resume (pc_cmos_set_s3_resume s irq level) irq2 level2
            = pc_cmos_set_s3_resume s irq level))
    ∧ (level = 0 → pc_cmos_set_s3_resume s irq level = s) := by
  constructor
  · intro h
    refine ⟨?_, ?_, ?_⟩
    · simp [pc_cmos_set_s3_resume, rtc_set_memory, h]
    · intro a ha
      simp [pc_cmos_set_s3_resume, rtc_set_memory, h, ha]
    · intro h2
      funext a
      by_cases ha : a = 0xF <;> simp [pc_cmos_set_s3_resume, rtc_set_memory, h, h2, ha]
  · intro h
    simp [pc_cmos_set_s3_resume, h]

theorem s3_resume_sentinel_witness :
    pc_cmos_set_s3_resume (fun _ => 0) 0 1 0xF = 0xFE
    ∧ pc_cmos_set_s3_resume (pc_cmos_set_s3_resume (fun _ => 0) 0 1) 0 1
        = pc_cmos_set_s3_resume (fun _ => 0) 0 1
    ∧ pc_cmos_set_s3_resume (fun _ => 7) 0 0 = (fun _ => 7) :=
  ⟨((s3_resume_sentinel (fun _ => 0) 0 0 1 1).1 (by decide)).1,
   ((s3_resume_sentinel (fun _ => 0) 0 0 1 1).1 (by decide)).2.2 (by decide),
   (s3_resume_sentinel (fun _ => 7) 0 0 0 0).2 rfl⟩

/-- C5: whatever the backend, the GSI array is allocated once with
`GSI_NUM_PINS` lines, and the routing installed on the root PCI bus is
`ich9_lpc_set_irq`, `ich9_lpc_map_irq` with `ICH9_LPC_NB_PIRQS` lines. -/
theorem gsi_wiring_backend_independent (H : Headers) (env : Env) (pci_enabled : Int)
    (args : QEMUMachineInitArgs) :
    ((pc_q35_init_body H env pci_enabled args).trace.filter
        (fun s => s.out.contains Handle.gsi)).map (fun s => (s.op, s.args.drop 1))
      = [(Op.qemu_allocate_irqs, [Val.obj .gsi_state, Val.num H.GSI_NUM_PINS])]
    ∧ steps_of .pci_bus_irqs (pc_q35_init_body H env pci_enabled args).trace
      = [Step.mk 144 .pci_bus_irqs
          [.obj .host_bus, .fn .ich9_lpc_set_irq, .fn .ich9_lpc_map_irq, .obj .lpc,
           .num H.ICH9_LPC_NB_PIRQS] []] := by
  rcases env with ⟨k, x, u⟩
  by_cases hp : pci_enabled = 0 <;> cases k <;> cases x <;> cases u <;>
    simp [pc_q35_init_body, q35_memory, q35_irq_lines, q35_host_bridge, q35_lpc,
      q35_interrupt_controller, q35_peripherals, i8259_irq_loop_eq, Machine.emit,
      Machine.entry, hp, steps_of, loop_steps, List.filter_map, Val.index,
      Val.addr_of]

/-- C6, as the code has it: the IOAPIC is initialised with the GSI state,
once, exactly when `pci_enabled` is set, whichever backend was selected, the
Xen one included. -/
theorem ioapic_init_iff_pci_enabled (H : Headers) (env : Env) (pci_enabled : Int)
    (args : QEMUMachineInitArgs) :
    steps_of .ioapic_init_gsi (pc_q35_init_body H env pci_enabled args).trace
      = if pci_enabled ≠ 0 then
          [Step.mk 164 .ioapic_init_gsi [.obj .gsi_state, .null] []]
        else [] := by
  rcases env with ⟨k, x, u⟩
  by_cases hp : pci_enabled = 0 <;> cases k <;> cases x <;> cases u <;>
    simp [pc_q35_init_body, q35_memory, q35_irq_lines, q35_host_bridge, q35_lpc,
      q35_interrupt_controller, q35_peripherals, i8259_irq_loop_eq, Machine.emit,
      Machine.entry, hp, steps_of, loop_steps, List.filter_map, Val.index,
      Val.addr_of]

/-- C6 fails as stated: with Xen active and no in-kernel irqchip the Xen
controller is the backend constructed, and `ioapic_init_gsi` is still
called. -/
theorem ioapic_init_under_xen :
    (pc_q35_init q35_headers ⟨false, true, false⟩ sample_args).trace.filter
        (fun s => s.op.is_backend_init)
      = [Step.mk 154 .xen_interrupt_controller_init [] [.xen_i8259]]
    ∧ steps_of .ioapic_init_gsi (pc_q35_init q35_headers ⟨false, true, false⟩ sample_args).trace
      = [Step.mk 164 .ioapic_init_gsi [.obj .gsi_state, .null] []] := by
  decide

theorem available_num (p : List Handle) (n : Int) : Val.available p (.num n) = true := by
  simp [Val.available, Val.handles]

theorem available_str (p : List Handle) (s : String) : Val.available p (.str s) = true := by
  simp [Val.available, Val.handles]

theorem available_fn (p : List Handle) (f : Callback) : Val.available p (.fn f) = true := by
  simp [Val.available, Val.handles]

theorem available_null (p : List Handle) : Val.available p .null = true := by
  simp [Val.available, Val.handles]

theorem available_cstr (p : List Handle) (o : Option String) :
    Val.available p (Val.cstr o) = true := by
  cases o <;> simp [Val.available, Val.handles, Val.cstr]

theorem available_obj (p : List Handle) (h : Handle) :
    Val.available p (.obj h) = p.contains h := by
  simp [Val.available, Val.handles]

theorem available_elem (p : List Handle) (h : Handle) (i : Nat) :
    Val.available p (.elem h i) = p.contains h := by
  simp [Val.available, Val.handles]

theorem available_member (p : List Handle) (h : Handle) (m : Member) :
    Val.available p (.member h m) = p.contains h := by
  simp [Val.available, Val.handles]

theorem def_before_use_loop (p : List Handle) (g : Handle) (h : Handle) (l : List Nat)
    (rest : List Step) (hg : p.contains g = true) (hi : p.contains h = true) :
    def_before_use p
        (l.map (fun (i : Nat) =>
          Step.mk 161 .store_i8259_irq [.obj g, .num (i : Int), .elem h i] []) ++ rest)
      = def_before_use p rest := by
  induction l with
  | nil => simp
  | cons i l ih =>
    simp only [List.map_cons, List.cons_append, def_before_use, List.all_cons,
      List.all_nil, available_num, available_obj, available_elem, hg, hi, Bool.and_true,
      Bool.true_and, List.nil_append]
    exact ih

/-- Without Xen every step of `pc_q35_init` consumes only values assigned,
and handles produced, by strictly earlier steps. -/
theorem def_before_use_without_xen (H : Headers) (env : Env) (pci_enabled : Int)
    (args : QEMUMachineInitArgs) (hx : env.xen_enabled = false) :
    def_before_use [] (pc_q35_init_body H env pci_enabled args).trace = true := by
  rcases env with ⟨k, x, u⟩
  simp only at hx
  subst hx
  by_cases hp : pci_enabled = 0 <;> cases k <;> cases u <;>
  · simp [pc_q35_init_body, q35_memory, q35_irq_lines, q35_host_bridge, q35_lpc,
      q35_interrupt_controller, q35_peripherals, i8259_irq_loop_eq, Machine.emit,
      Machine.entry, hp, loop_steps, Val.index, Val.addr_of]
    simp [def_before_use, available_num, available_str, available_fn, available_null,
      available_cstr, available_obj, available_elem, available_member, def_before_use_loop]

theorem def_before_use_without_xen_witness :
    def_before_use [] (pc_q35_init_body q35_headers ⟨true, false, true⟩ 1 sample_args).trace
      = true :=
  def_before_use_without_xen q35_headers ⟨true, false, true⟩ 1 sample_args rfl

/-- C7 fails with Xen active: `pc_memory_init` is not called, no step produces
the `ram_memory` handle, and line 128 stores the never-assigned local
`ram_memory` into the host bridge. -/
theorem ram_memory_unassigned_under_xen :
    steps_of .pc_memory_init (pc_q35_init q35_headers ⟨false, true, false⟩ sample_args).trace = []
    ∧ (pc_q35_init q35_headers ⟨false, true, false⟩ sample_args).trace.filter
        (fun s => s.out.contains Handle.ram_memory) = []
    ∧ steps_of .store_mch_ram_memory
        (pc_q35_init q35_headers ⟨false, true, false⟩ sample_args).trace
      = [Step.mk 128 .store_mch_ram_memory [.obj .q35_host, .uninit] []]
    ∧ (pc_q35_init q35_headers ⟨false, true, false⟩ sample_args).ram_memory = .uninit
    ∧ def_before_use [] (pc_q35_init q35_headers ⟨false, true, false⟩ sample_args).trace
      = false := by
  decide

/-- With Xen active the store of line 128 consumes the never-assigned local
`ram_memory`, whatever the other settings. -/
theorem ram_memory_unassigned_under_any_xen (H : Headers) (env : Env) (pci_enabled : Int)
    (args : QEMUMachineInitArgs) (hx : env.xen_enabled = true) :
    steps_of .store_mch_ram_memory (pc_q35_init_body H env pci_enabled args).trace
      = [Step.mk 128 .store_mch_ram_memory [.obj .q35_host, .uninit] []]
    ∧ def_before_use [] (pc_q35_init_body H env pci_enabled args).trace = false := by
  rcases env with ⟨k, x, u⟩
  simp only at hx
  subst hx
  by_cases hp : pci_enabled = 0 <;> cases k <;> cases u <;>
  · simp [pc_q35_init_body, q35_memory, q35_irq_lines, q35_host_bridge, q35_lpc,
      q35_interrupt_controller, q35_peripherals, i8259_irq_loop_eq, Machine.emit,
      Machine.entry, hp, loop_steps, Val.index, Val.addr_of, steps_of, List.filter_map]
    simp [def_before_use, available_num, available_str, available_fn, available_null,
      available_cstr, available_obj, available_elem, available_member, def_before_use_loop,
      Val.available]

theorem ram_memory_unassigned_under_any_xen_witness :
    steps_of .store_mch_ram_memory
        (pc_q35_init_body q35_headers ⟨true, true, true⟩ 1 sample_args).trace
      = [Step.mk 128 .store_mch_ram_memory [.obj .q35_host, .uninit] []]
    ∧ def_before_use []
        (pc_q35_init_body q35_headers ⟨true, true, true⟩ 1 sample_args).trace = false :=
  ram_memory_unassigned_under_any_xen q35_headers ⟨true, true, true⟩ 1 sample_args rfl

theorem takeWhile_loop (g h : Handle) (l : List Nat) (rest : List Step) :
    (l.map (fun (i : Nat) =>
        Step.mk 161 .store_i8259_irq [.obj g, .num (i : Int), .elem h i] []) ++ rest).takeWhile
        (fun s => s.op != .ioapic_init_gsi)
      = l.map (fun (i : Nat) =>
          Step.mk 161 .store_i8259_irq [.obj g, .num (i : Int), .elem h i] [])
        ++ rest.takeWhile (fun s => s.op != .ioapic_init_gsi) := by
  induction l with
  | nil => simp
  | cons i l ih =>
    simp only [List.map_cons, List.cons_append]
    rw [List.takeWhile_cons_of_pos (by simp), ih]

theorem i8259_irq_after_cons (s : Step) (t : List Step) (i : Nat)
    (h : s.op ≠ .store_i8259_irq) : i8259_irq_after (s :: t) i = i8259_irq_after t i := by
  simp [i8259_irq_after, List.filter_cons, h]

theorem i8259_irq_after_loop (g h : Handle) (n i : Nat) (hi : i < n) :
    i8259_irq_after ((List.range n).map (fun (i : Nat) =>
        Step.mk 161 .store_i8259_irq [.obj g, .num (i : Int), .elem h i] [])) i
      = .elem h i := by
  have key : ∀ n, ((List.range n).map (fun (i : Nat) =>
        Step.mk 161 .store_i8259_irq [.obj g, .num (i : Int), .elem h i] [])).filter
        (fun s => s.op = .store_i8259_irq ∧ s.args.get? 1 = some (.num i))
      = if i < n then [Step.mk 161 .store_i8259_irq [.obj g, .num (i : Int), .elem h i] []]
        else [] := by
    intro n
    induction n with
    | zero => simp
    | succ n ih =>
      rw [List.range_succ, List.map_append, List.filter_append, ih]
      by_cases h1 : i < n
      · have h2 : ¬ n = i := by omega
        have h3 : i < n + 1 := by omega
        simp [h1, h2, h3, List.filter_cons]
      · by_cases h2 : n = i
        · subst h2
          simp [List.filter_cons]
        · have h3 : ¬ i < n + 1 := by omega
          simp [h1, h2, h3, List.filter_cons]
  unfold i8259_irq_after
  rw [key n]
  simp [hi]

/-- C8: with the software backend and `pci_enabled` set, `ioapic_init_gsi`
is called exactly once, and when it is called every element `i` below
`ISA_NUM_IRQS` of `gsi_state->i8259_irq` holds `i8259[i]`, `i8259` being the
array `i8259_init` returned. -/
theorem ioapic_init_after_i8259_recorded (H : Headers) (env : Env) (pci_enabled : Int)
    (args : QEMUMachineInitArgs) (hk : env.kvm_irqchip_in_kernel = false)
    (hx : env.xen_enabled = false) (hp : pci_enabled ≠ 0) :
    steps_of .ioapic_init_gsi (pc_q35_init_body H env pci_enabled args).trace
      = [Step.mk 164 .ioapic_init_gsi [.obj .gsi_state, .null] []]
    ∧ (pc_q35_init_body H env pci_enabled args).i8259 = .obj .sw_i8259
    ∧ ∀ i, i < H.ISA_NUM_IRQS →
        i8259_irq_after
            ((pc_q35_init_body H env pci_enabled args).trace.takeWhile
              (fun s => s.op != .ioapic_init_gsi)) i
          = (pc_q35_init_body H env pci_enabled args).i8259.index i := by
  rcases env with ⟨k, x, u⟩
  simp only at hk hx
  subst hk hx
  cases u <;>
  · refine ⟨?_, ?_, ?_⟩
    · simp [pc_q35_init_body, q35_memory, q35_irq_lines, q35_host_bridge, q35_lpc,
        q35_interrupt_controller, q35_peripherals, i8259_irq_loop_eq, Machine.emit,
        Machine.entry, hp, loop_steps, Val.index, Val.addr_of, steps_of, List.filter_map]
    · simp [pc_q35_init_body, q35_memory, q35_irq_lines, q35_host_bridge, q35_lpc,
        q35_interrupt_controller, q35_peripherals, i8259_irq_loop_eq, Machine.emit,
        Machine.entry, hp]
    · intro i hi
      simp [pc_q35_init_body, q35_memory, q35_irq_lines, q35_host_bridge, q35_lpc,
        q35_interrupt_controller, q35_peripherals, i8259_irq_loop_eq, Machine.emit,
        Machine.entry, hp, loop_steps, Val.index, Val.addr_of]
      simp [List.takeWhile_cons, takeWhile_loop, i8259_irq_after_cons,
        i8259_irq_after_loop, hi]

theorem ioapic_init_after_i8259_recorded_witness :
    steps_of .ioapic_init_gsi
        (pc_q35_init_body q35_headers ⟨false, false, true⟩ 1 sample_args).trace
      = [Step.mk 164 .ioapic_init_gsi [.obj .gsi_state, .null] []]
    ∧ (pc_q35_init_body q35_headers ⟨false, false, true⟩ 1 sample_args).i8259 = .obj .sw_i8259
    ∧ ∀ i, i < q35_headers.ISA_NUM_IRQS →
        i8259_irq_after
            ((pc_q35_init_body q35_headers ⟨false, false, true⟩ 1 sample_args).trace.takeWhile
              (fun s => s.op != .ioapic_init_gsi)) i
          = (pc_q35_init_body q35_headers ⟨false, false, true⟩ 1 sample_args).i8259.index i :=
  ioapic_init_after_i8259_recorded q35_headers ⟨false, false, true⟩ 1 sample_args rfl rfl
    (by decide)

theorem filter_loop_not_ehci (g h : Handle) (l : List Nat) :
    (l.map (fun (i : Nat) =>
        Step.mk 161 .store_i8259_irq [.obj g, .num (i : Int), .elem h i] [])).filter
        (fun s => s.op != .ehci_create_ich9_with_companions)
      = l.map (fun (i : Nat) =>
          Step.mk 161 .store_i8259_irq [.obj g, .num (i : Int), .elem h i] []) := by
  induction l with
  | nil => simp
  | cons i l ih =>
    simp only [List.map_cons]
    rw [List.filter_cons_of_pos (by simp), ih]

/-- C9: with USB disabled no USB companion controller is attached, and the
steps of `pc_q35_init` are those of the run with USB enabled without its one
`ehci_create_ich9_with_companions` step (root bus, slot `0x1d`): same steps,
same order, same arguments. -/
theorem usb_disabled_drops_only_ehci (H : Headers) (k x : Bool) (pci_enabled : Int)
    (args : QEMUMachineInitArgs) :
    steps_of .ehci_create_ich9_with_companions
        (pc_q35_init_body H ⟨k, x, false⟩ pci_enabled args).trace = []
    ∧ steps_of .ehci_create_ich9_with_companions
        (pc_q35_init_body H ⟨k, x, true⟩ pci_enabled args).trace
      = [Step.mk 186 .ehci_create_ich9_with_companions [.obj .host_bus, .num 0x1d] []]
    ∧ (pc_q35_init_body H ⟨k, x, false⟩ pci_enabled args).trace
      = (pc_q35_init_body H ⟨k, x, true⟩ pci_enabled args).trace.filter
          (fun s => s.op != .ehci_create_ich9_with_companions) := by
  by_cases hp : pci_enabled = 0 <;> cases k <;> cases x <;>
    simp [pc_q35_init_body, q35_memory, q35_irq_lines, q35_host_bridge, q35_lpc,
      q35_interrupt_controller, q35_peripherals, i8259_irq_loop_eq, Machine.emit,
      Machine.entry, hp, loop_steps, Val.index, Val.addr_of, steps_of,
      List.filter_cons, filter_loop_not_ehci]

theorem filter_loop_before_170 (g h : Handle) (l : List Nat) :
    (l.map (fun (i : Nat) =>
        Step.mk 161 .store_i8259_irq [.obj g, .num (i : Int), .elem h i] [])).filter
        (fun s => s.line < 170)
      = l.map (fun (i : Nat) =>
          Step.mk 161 .store_i8259_irq [.obj g, .num (i : Int), .elem h i] []) := by
  induction l with
  | nil => simp
  | cons i l ih =>
    simp only [List.map_cons]
    rw [List.filter_cons_of_pos (by simp), ih]

/-- C10: the steps of `pc_q35_init` from line 170 on are, in this order: basic
ISA devices (RTC, floppy), the power-management line, the storage controller
and its buses `ide.0` and `ide.1`, the USB companions if USB is enabled, the
SMBus controller and its EEPROM, `pc_cmos_init` with the memory split, the boot
order, the floppy, both IDE buses and the RTC, then VGA, audio and NIC, then
`pc_pci_device_init` if `pci_enabled` is set; every earlier step precedes
them. -/
theorem peripheral_attachment_order (H : Headers) (env : Env) (pci_enabled : Int)
    (args : QEMUMachineInitArgs) :
    (pc_q35_init_body H env pci_enabled args).trace
      = (pc_q35_init_body H env pci_enabled args).trace.filter (fun s => s.line < 170)
        ++ attachment_order H env.usb_enabled (decide (pci_enabled ≠ 0)) args := by
  rcases env with ⟨k, x, u⟩
  by_cases hp : pci_enabled = 0 <;> cases k <;> cases x <;> cases u <;>
    simp [pc_q35_init_body, q35_memory, q35_irq_lines, q35_host_bridge, q35_lpc,
      q35_interrupt_controller, q35_peripherals, i8259_irq_loop_eq, Machine.emit,
      Machine.entry, hp, loop_steps, Val.index, Val.addr_of,
      List.filter_cons, attachment_order, filter_loop_before_170]

end Q35
